import Mathlib

/-!
Verification of the student-inscription agent against its specification.

The Python modules `student_profile.py`, `form_sections.py`,
`field_detection.py`, `user_account.py` and the `start_phase2` endpoint of
`main.py` are shallowly embedded below: optional Python values become
`Option`, Python dictionaries keyed by strings become association lists,
and Python truthiness on optional values is made explicit.
-/

namespace Inscription

/-- Python truthiness of an `Optional[bool]`: `None` and `False` are falsy. -/
def pyTruthyBool : Option Bool → Bool
  | none => false
  | some b => b

/-- Python truthiness of an `Optional[str]`: `None` and `""` are falsy. -/
def pyTruthyStr : Option String → Bool
  | none => false
  | some s => s ≠ ""

/-- Lookup in a Python dict modelled as an association list (first match). -/
def dictLookup : List (String × String) → String → Option String
  | [], _ => none
  | (k, v) :: rest, key => if k = key then some v else dictLookup rest key

/-- Python `key in dict`. -/
def dictContains (d : List (String × String)) (key : String) : Bool :=
  (dictLookup d key).isSome

/-! ## `student_profile.py` : the `StudentProfile` data model

Fields `session_id`, `created_at`, `updated_at` carry no logic; only
`session_id` is kept.  The five phase-1 facts are `Optional` in the source
(`None` = not yet collected). -/

structure StudentProfile where
  session_id : String
  phase : String
  inscription_type : Option String
  is_boursier : Option Bool
  is_mineur : Option Bool
  inscrit_autre_etablissement : Option Bool
  has_jdc : Option Bool
  required_documents : List String
  form_data : List (String × String)
  form_completed : Bool
  current_step : String
  completed_steps : List String
  deriving Repr, DecidableEq

/-- Constructor `StudentProfile.__init__`: a fresh profile for a session. -/
def StudentProfile.init (session_id : String) : StudentProfile :=
  { session_id := session_id
    phase := "collecte_info"
    inscription_type := none
    is_boursier := none
    is_mineur := none
    inscrit_autre_etablissement := none
    has_jdc := none
    required_documents := []
    form_data := []
    form_completed := false
    current_step := "start"
    completed_steps := [] }

/-- A profile whose five phase-1 facts are as given, all other fields as in
`__init__` (used to state per-fact claims). -/
def mkProfile (t : Option String) (b m a j : Option Bool) : StudentProfile :=
  { StudentProfile.init "s" with
    inscription_type := t
    is_boursier := b
    is_mineur := m
    inscrit_autre_etablissement := a
    has_jdc := j }

/-! The document strings of `calculate_required_documents`, verbatim. -/

def docPhoto : String :=
  "Photo d\x27identité (35x45mm, JPG) avec nom, prénom et année d\x27inscription au verso"
def docPieceIdentite : String := "Photocopie recto-verso pièce d\x27identité"
def docRespCivile : String :=
  "Attestation responsabilité civile (année universitaire en cours)"
def docCvec : String := "Attestation CVEC (acquittement ou exonération)"
def docDiplomeBac : String :=
  "Photocopie diplôme ou relevé notes baccalauréat (si obtenu en 2025)"
def docCessionImage : String := "Formulaire cession droit à l\x27image"
def docJdc : String := "Attestation JDC ou attestation d\x27exemption"
def docAutorisationInscription : String := "Autorisation d\x27inscription"
def docCarteEtudiante : String := "Carte étudiante de l\x27année précédente"
def docAutorisationParentale : String := "Autorisation parentale"
def docCrous : String :=
  "Attestation CROUS portant la mention « boursier » pour l\x27année universitaire en cours"
def docBulletinVersement : String :=
  "Copie du bulletin de versement des droits universitaires"

/-- Method `StudentProfile.calculate_required_documents` (pure part: the returned
list; the method also stores it in `required_documents`, see
`calcDocumentsUpdate`).  Branch structure mirrors the source: baseline
documents, then the branch on `inscription_type`, then the two cross-cutting
conditionals. -/
def StudentProfile.calculate_required_documents (p : StudentProfile) : List String :=
  let documents := [docPhoto, docPieceIdentite, docRespCivile, docCvec]
  let documents :=
    if p.inscription_type = some "premiere_inscription" then
      documents ++ [docDiplomeBac, docCessionImage] ++
        (if !pyTruthyBool p.has_jdc then [docJdc] else [])
    else if p.inscription_type = some "lap" ∨ p.inscription_type = some "master" then
      documents ++ [docAutorisationInscription, docCarteEtudiante] ++
        (if pyTruthyBool p.is_mineur then [docAutorisationParentale] else []) ++
        (if !pyTruthyBool p.has_jdc then [docJdc] else [])
    else if p.inscription_type = some "prep_concours" then
      documents ++ [docAutorisationInscription, docCarteEtudiante] ++
        (if pyTruthyBool p.is_mineur then [docAutorisationParentale] else []) ++
        (if !pyTruthyBool p.has_jdc then [docJdc] else [])
    else documents
  let documents := if pyTruthyBool p.is_boursier then documents ++ [docCrous] else documents
  let documents :=
    if pyTruthyBool p.inscrit_autre_etablissement then documents ++ [docBulletinVersement]
    else documents
  documents

/-- The side effect of `calculate_required_documents`:
`self.required_documents = documents`. -/
def StudentProfile.calcDocumentsUpdate (p : StudentProfile) : StudentProfile :=
  { p with required_documents := p.calculate_required_documents }

/-- Method `StudentProfile.is_phase1_complete`: all five facts are `not None`. -/
def StudentProfile.is_phase1_complete (p : StudentProfile) : Bool :=
  p.inscription_type.isSome &&
  p.is_boursier.isSome &&
  p.is_mineur.isSome &&
  p.inscrit_autre_etablissement.isSome &&
  p.has_jdc.isSome

/-- Method `StudentProfile.move_to_phase2`: returns the Python return value
(`True`/`False`) together with the profile after the call. -/
def StudentProfile.move_to_phase2 (p : StudentProfile) : Bool × StudentProfile :=
  if p.is_phase1_complete then
    (true, { p with phase := "remplissage_formulaire", current_step := "personal_info" })
  else
    (false, p)

/-- A fresh key-value pair appended to a dict (`d[k] = v` for a key not yet
present keeps insertion order in Python). -/
def dictSet (d : List (String × String)) (k v : String) : List (String × String) :=
  d ++ [(k, v)]

/-! ## `main.py` : the `start_phase2` endpoint

`start_phase2` (lines 317-348) loads the profile (404 if absent), rejects
with HTTP 400 unless `is_phase1_complete`, then: recalculates the documents,
re-initialises `form_data` when falsy (a no-op on the empty dict), backfills
`form_data["type_inscription"]` from `inscription_type` when truthy and the
key is absent, and calls `move_to_phase2`.  `start_phase2_core` is the body
after the two HTTP guard checks. -/

def start_phase2_core (p : StudentProfile) : StudentProfile :=
  let p1 := p.calcDocumentsUpdate
  let p2 :=
    if pyTruthyStr p1.inscription_type && !dictContains p1.form_data "type_inscription" then
      if p1.inscription_type = some "premiere_inscription" then
        { p1 with form_data := dictSet p1.form_data "type_inscription" "1ère Inscription" }
      else if p1.inscription_type = some "lap" ∨ p1.inscription_type = some "master" ∨
          p1.inscription_type = some "prep_concours" then
        { p1 with form_data := dictSet p1.form_data "type_inscription" "Réinscription" }
      else p1
    else p1
  (p2.move_to_phase2).2

lemma move_to_phase2_snd (q : StudentProfile) :
    (q.move_to_phase2).2 =
      if q.is_phase1_complete then
        { q with phase := "remplissage_formulaire", current_step := "personal_info" }
      else q := by
  unfold StudentProfile.move_to_phase2
  split <;> rfl

lemma dictLookup_append_fresh (d : List (String × String)) (k v : String)
    (h : dictLookup d k = none) : dictLookup (d ++ [(k, v)]) k = some v := by
  induction d with
  | nil => simp [dictLookup]
  | cons hd tl ih =>
    obtain ⟨k', v'⟩ := hd
    by_cases hk : k' = k
    · simp [dictLookup, hk] at h
    · simp only [dictLookup, List.cons_append, if_neg hk] at h ⊢
      exact ih h

/-- What `start_phase2_core` does to a phase-1-complete profile, as one record
equation. -/
lemma start_phase2_core_spec (p : StudentProfile) (h : p.is_phase1_complete = true) :
    start_phase2_core p =
      { p with
        required_documents := p.calculate_required_documents
        form_data :=
          if pyTruthyStr p.inscription_type &&
              !dictContains p.form_data "type_inscription" then
            if p.inscription_type = some "premiere_inscription" then
              dictSet p.form_data "type_inscription" "1ère Inscription"
            else if p.inscription_type = some "lap" ∨ p.inscription_type = some "master" ∨
                p.inscription_type = some "prep_concours" then
              dictSet p.form_data "type_inscription" "Réinscription"
            else p.form_data
          else p.form_data
        phase := "remplissage_formulaire"
        current_step := "personal_info" } := by
  simp only [start_phase2_core, StudentProfile.calcDocumentsUpdate]
  split_ifs with hc hp hr <;>
    (rw [move_to_phase2_snd]; split)
  all_goals first
    | rfl
    | (rename_i hf; exact absurd h hf)

/-! ## `form_sections.py` : the 24-section form catalog

Each catalog entry is either a simple section (one `"field"` key) or a
multi-field section (`"fields"` dict).  Only the keys read by
`get_missing_sections` are embedded: section `number`, `name`, the
section-level `required` flag, and per-field `required` flags.  Formats,
options and help texts play no role in the verified functions. -/

structure FormField where
  name : String
  required : Bool
  deriving Repr, DecidableEq

inductive SectionContent where
  | simple (field : String)
  | multi (fields : List FormField)
  deriving Repr, DecidableEq

structure FormSection where
  number : Nat
  name : String
  required : Bool
  content : SectionContent
  deriving Repr, DecidableEq

open SectionContent in
def FORM_SECTIONS : List FormSection :=
  [⟨1, "Inscription A AMU", true, simple "type_inscription"⟩,
   ⟨2, "Etat civil - Informations de base", true, multi
      [⟨"nom_naissance", true⟩, ⟨"nom_usuel", false⟩, ⟨"prenom_1", true⟩,
       ⟨"prenom_2", false⟩, ⟨"prenom_3", false⟩, ⟨"numero_etudiant", false⟩,
       ⟨"numero_ines", true⟩]⟩,
   ⟨3, "Date de naissance et sexe", true, multi
      [⟨"date_naissance", true⟩, ⟨"sexe", true⟩]⟩,
   ⟨4, "Lieu de naissance", true, multi
      [⟨"ville_naissance", true⟩, ⟨"arrondissement", false⟩,
       ⟨"departement_naissance", true⟩, ⟨"pays_naissance", true⟩]⟩,
   ⟨5, "Nationalité", true, multi
      [⟨"nationalite", true⟩, ⟨"refugie_politique", false⟩]⟩,
   ⟨6, "Situation familiale", true, simple "situation_familiale"⟩,
   ⟨7, "Handicap", false, simple "handicap"⟩,
   ⟨8, "Situation militaire", true, simple "situation_militaire"⟩,
   ⟨9, "Première inscription dans l\x27enseignement supérieur français", true, multi
      [⟨"premiere_inscription_sup_annee", false⟩,
       ⟨"premiere_inscription_universite_annee", false⟩,
       ⟨"premiere_inscription_universite_etablissement", false⟩]⟩,
   ⟨10, "Baccalauréat français ou équivalence", true, multi
      [⟨"bac_annee", true⟩, ⟨"bac_serie", true⟩, ⟨"bac_mention", false⟩,
       ⟨"bac_specialite_1_terminale", false⟩, ⟨"bac_specialite_2_terminale", false⟩,
       ⟨"bac_specialite_premiere_abandonnee", false⟩, ⟨"bac_type_etablissement", true⟩,
       ⟨"bac_nom_etablissement", true⟩, ⟨"bac_ville", true⟩, ⟨"bac_departement", true⟩]⟩,
   ⟨11, "Adresses", true, multi
      [⟨"adresse_complete", true⟩, ⟨"code_postal", true⟩, ⟨"ville", true⟩,
       ⟨"type_hebergement", true⟩]⟩,
   ⟨12, "Inscription administrative annuelle - Catégorie socio-professionnelle de l\x27étudiant",
      true, multi
      [⟨"csp_etudiant_code", true⟩, ⟨"csp_etudiant_activite", true⟩,
       ⟨"csp_etudiant_quotite", true⟩]⟩,
   ⟨13, "Inscription administrative annuelle - Catégorie socio-professionnelle des parents",
      true, multi [⟨"csp_parent_1", true⟩, ⟨"csp_parent_2", true⟩]⟩,
   ⟨14, "Sportif de haut niveau", false, simple "sportif_haut_niveau"⟩,
   ⟨15, "Aides financières autres que bourse sur critères sociaux", false,
      simple "aides_financieres"⟩,
   ⟨16, "Échanges internationaux", true, multi
      [⟨"echanges_internationaux", true⟩, ⟨"echanges_type", false⟩,
       ⟨"echanges_programme", false⟩, ⟨"echanges_etablissement_etranger", false⟩,
       ⟨"echanges_pays", false⟩]⟩,
   ⟨17, "Dernier établissement fréquenté", true, multi
      [⟨"dernier_etablissement_annee", true⟩,
       ⟨"dernier_etablissement_francais_nom", false⟩,
       ⟨"dernier_etablissement_francais_departement", false⟩,
       ⟨"dernier_etablissement_etranger_nom", false⟩,
       ⟨"dernier_etablissement_etranger_pays", false⟩]⟩,
   ⟨18, "Situation de l\x27année 2025-2026", true, multi
      [⟨"situation_2025_2026_type", true⟩,
       ⟨"situation_etablissement_francais_nom", false⟩,
       ⟨"situation_etablissement_francais_departement", false⟩,
       ⟨"situation_etablissement_etranger_nom", false⟩,
       ⟨"situation_etablissement_etranger_pays", false⟩]⟩,
   ⟨19, "Dernier diplôme obtenu", true, multi
      [⟨"dernier_diplome_code", true⟩, ⟨"dernier_diplome_libelle", true⟩,
       ⟨"dernier_diplome_annee", true⟩, ⟨"dernier_diplome_etablissement", true⟩,
       ⟨"dernier_diplome_departement", false⟩, ⟨"dernier_diplome_pays", false⟩]⟩,
   ⟨20, "Inscrit dans un autre établissement cette année", true, multi
      [⟨"inscrit_autre_etablissement", true⟩, ⟨"autre_etablissement_nom", false⟩,
       ⟨"autre_etablissement_ville", false⟩]⟩,
   ⟨21, "Diplômes et étapes postulés - Principal", true, multi
      [⟨"diplome_postule_intitule", true⟩, ⟨"diplome_postule_specialite", true⟩,
       ⟨"diplome_postule_finalite", true⟩, ⟨"diplome_postule_parcours", true⟩,
       ⟨"diplome_postule_niveau", true⟩, ⟨"diplome_postule_code_etape", false⟩,
       ⟨"diplome_postule_lieu", false⟩, ⟨"diplome_postule_nb_inscriptions_cycle", true⟩,
       ⟨"diplome_postule_nb_inscriptions_diplome", true⟩,
       ⟨"diplome_postule_nb_inscriptions_niveau", true⟩,
       ⟨"diplome_postule_code_cpge", false⟩, ⟨"diplome_postule_cesure", false⟩,
       ⟨"diplome_postule_enseignement_distance", true⟩,
       ⟨"diplome_postule_enseignement_distance_lieu", false⟩,
       ⟨"diplome_postule_bourses", false⟩, ⟨"diplome_postule_these_cotutelle", false⟩]⟩,
   ⟨22, "Diplômes et étapes postulés - Autre diplôme (optionnel)", false, multi
      [⟨"autre_diplome_postule_intitule", false⟩, ⟨"autre_diplome_postule_etape", false⟩,
       ⟨"autre_diplome_postule_code_etape", false⟩, ⟨"autre_diplome_postule_lieu", false⟩,
       ⟨"autre_diplome_postule_nb_inscriptions_cycle", false⟩,
       ⟨"autre_diplome_postule_nb_inscriptions_diplome", false⟩,
       ⟨"autre_diplome_postule_nb_inscriptions_niveau", false⟩,
       ⟨"autre_diplome_postule_enseignement_distance", false⟩,
       ⟨"autre_diplome_postule_enseignement_distance_lieu", false⟩]⟩,
   ⟨23, "Informations complémentaires", true, multi
      [⟨"pupilles_nation", true⟩, ⟨"assurance_responsabilite_civile", true⟩,
       ⟨"assurance_organisme", false⟩, ⟨"etudiant_mineur", true⟩]⟩,
   ⟨24, "Certifications et signature", true, multi
      [⟨"certification_exactitude", true⟩, ⟨"certification_charte", true⟩,
       ⟨"signature_date", true⟩, ⟨"signature_lieu", true⟩]⟩]

/-- Condition `field not in form_data or not form_data.get(field)` (a present but
falsy/empty value counts as missing). -/
def fieldMissing (fd : List (String × String)) (field : String) : Bool :=
  !dictContains fd field || !pyTruthyStr (dictLookup fd field)

/-- The `missing_fields` list `get_missing_sections` accumulates for one
section: the simple field, or every required field that is missing.  The
source's `section_missing` flag is true exactly when this list is
non-empty. -/
def sectionMissingFields (fd : List (String × String)) (s : FormSection) : List String :=
  match s.content with
  | .simple f => if fieldMissing fd f then [f] else []
  | .multi fields =>
      (fields.filter (fun fi => fi.required && fieldMissing fd fi.name)).map (·.name)

/-- Function `get_missing_sections`: each reported section (a copy of the catalog
entry) paired with its `missing_fields`; sections with `required = False`
are skipped, as are sections where no checked field is missing. -/
def get_missing_sections (fd : List (String × String)) :
    List (FormSection × List String) :=
  FORM_SECTIONS.filterMap (fun s =>
    if !s.required then none
    else
      let mf := sectionMissingFields fd s
      if mf.isEmpty then none else some (s, mf))

/-! ## `field_detection.py` : field-type classification

`detect_field_type(field_type, format_info, field_data)` reads `field_data`
only through `"options" in field_data`, embedded as the Boolean
`options_present`.  Strings are compared by Python `in`, here
`containsSubstr` on the character lists; `str.lower()` is `String.toLower`
(the catalog's non-ASCII letters are already lower-case, where the two
differ).  `re.search(r"(\d+)", text)` finds the first maximal run of
decimal digits. -/

def isPrefixList : List Char → List Char → Bool
  | [], _ => true
  | _ :: _, [] => false
  | a :: as, b :: bs => a == b && isPrefixList as bs

def isInfixList (pat : List Char) : List Char → Bool
  | [] => pat.isEmpty
  | c :: rest => isPrefixList pat (c :: rest) || isInfixList pat rest

def containsSubstr (s pat : String) : Bool :=
  isInfixList pat.toList s.toList

/-- Lowercasing as used on the format hints (`format_info.lower()`).  The
embedding maps the ASCII range; Python also lowercases non-ASCII letters, but
every format hint this program builds or compares is identical under both. -/
def pyLowerChar (c : Char) : Char :=
  if 65 ≤ c.toNat ∧ c.toNat ≤ 90 then Char.ofNat (c.toNat + 32) else c

def pyLower (s : String) : String :=
  ⟨s.toList.map pyLowerChar⟩

def firstDigitRun : List Char → Option (List Char)
  | [] => none
  | c :: cs => if c.isDigit then some (c :: cs.takeWhile Char.isDigit) else firstDigitRun cs

def digitsVal (l : List Char) : Nat :=
  l.foldl (fun a c => a * 10 + (c.toNat - 48)) 0

/-- Function `extract_number`: the first integer occurring in the text, if any. -/
def extract_number (s : String) : Option Nat :=
  (firstDigitRun s.toList).map digitsVal

/-- Python truthiness of an `Optional[int]`: `None` and `0` are falsy. -/
def pyTruthyNat : Option Nat → Bool
  | none => false
  | some n => n ≠ 0

/-- Function `detect_field_type`: the ordered rule chain of the source.  The
character/digit-count rule is one branch: when the count keyword is present
but `extract_number` is falsy (`None` or `0`), control falls through to the
LATER rules, exactly as the early-return structure of the source does. -/
def detect_field_type (field_type format_info : String) (options_present : Bool) : String :=
  let format_lower := pyLower format_info
  if field_type == "choice" || containsSubstr format_lower "choisir" || options_present then
    "choice"
  else if field_type == "checkbox" then
    "checkbox"
  else if containsSubstr format_lower "jj/mm/aaaa" || containsSubstr format_lower "date" then
    "date"
  else if containsSubstr format_lower "année" || containsSubstr format_lower "annee" then
    "year"
  else if (containsSubstr format_lower "caractères" || containsSubstr format_lower "chiffres")
      && pyTruthyNat (extract_number format_lower) then
    "numeric_" ++ toString ((extract_number format_lower).getD 0)
  else if containsSubstr format_lower "code" && containsSubstr format_lower "annexe" then
    "code_annexe"
  else if containsSubstr format_lower "adresse" && containsSubstr format_lower "complète" then
    "address"
  else if containsSubstr format_lower "majuscules" || containsSubstr format_lower "uppercase" then
    "text_uppercase"
  else
    "text"

/-! ## `user_account.py` : password verification

`UserAccount.hash_password` is `hashlib.sha256(password.encode()).hexdigest()`;
the digest computation itself is irrelevant to the verification logic, so it
is a parameter `hash_password` of `verify_password`.  `if not
self.password_hash` is Python truthiness: `None` and the empty string both
skip the check. -/

structure UserAccount where
  email : String
  password_hash : Option String
  deriving Repr, DecidableEq

def UserAccount.verify_password (hash_password : String → String)
    (a : UserAccount) (password : String) : Bool :=
  match a.password_hash with
  | none => true
  | some h => if h == "" then true else hash_password password == h

end Inscription

namespace Inscription

/-- C1 -- For a first-enrollment profile with `scholarship`, `minor`,
`enrolled_elsewhere`, `has_certificate` all `false`,
`calculate_required_documents` returns exactly the 4 baseline items, then the
diploma/transcript proof, then the image-rights form, then the JDC document
(7 items, in that order); with `has_certificate = true` the JDC document is
omitted (6 items, same order). -/
theorem c1_first_enrollment_documents :
    (mkProfile (some "premiere_inscription") (some false) (some false) (some false)
        (some false)).calculate_required_documents =
      [docPhoto, docPieceIdentite, docRespCivile, docCvec,
       docDiplomeBac, docCessionImage, docJdc] ∧
    (mkProfile (some "premiere_inscription") (some false) (some false) (some false)
        (some true)).calculate_required_documents =
      [docPhoto, docPieceIdentite, docRespCivile, docCvec,
       docDiplomeBac, docCessionImage] := by
  constructor <;> rfl

/-- C2 -- `is_phase1_complete` is `true` exactly when all five situational
facts are set (not `None`); it is `false` whenever any of them is unset, and
a fact set to `false` counts as set. -/
theorem c2_phase1_complete_iff_all_facts_set (p : StudentProfile) :
    p.is_phase1_complete = true ↔
      (p.inscription_type ≠ none ∧ p.is_boursier ≠ none ∧ p.is_mineur ≠ none ∧
       p.inscrit_autre_etablissement ≠ none ∧ p.has_jdc ≠ none) := by
  simp only [StudentProfile.is_phase1_complete, Bool.and_eq_true,
    Option.isSome_iff_ne_none, ne_eq]
  tauto

/-- C3 -- Whenever at least one of the five facts is unset,
`move_to_phase2` returns the failure value `False` and leaves the profile
entirely unchanged (in particular `phase` and `current_step` keep their
previous values). -/
theorem c3_move_to_phase2_incomplete_noop (p : StudentProfile)
    (h : p.is_phase1_complete = false) :
    p.move_to_phase2 = (false, p) := by
  simp [StudentProfile.move_to_phase2, h]

/-- Witness for C3: a profile with `scholarship` (`is_boursier`) unset is
rejected by `move_to_phase2` and kept unchanged. -/
theorem c3_move_to_phase2_incomplete_noop_witness :
    (mkProfile (some "premiere_inscription") none (some false) (some false)
        (some false)).move_to_phase2 =
      (false,
       mkProfile (some "premiere_inscription") none (some false) (some false)
        (some false)) :=
  c3_move_to_phase2_incomplete_noop _ (by decide)

/-- C7 -- With the other four facts fixed (arbitrary), the document list is
identical for `inscription_type` = `lap`, `master` and `prep_concours`. -/
theorem c7_reenrollment_kinds_same_documents (b m a j : Option Bool) :
    (mkProfile (some "lap") b m a j).calculate_required_documents =
      (mkProfile (some "master") b m a j).calculate_required_documents ∧
    (mkProfile (some "master") b m a j).calculate_required_documents =
      (mkProfile (some "prep_concours") b m a j).calculate_required_documents := by
  constructor <;> simp [StudentProfile.calculate_required_documents, mkProfile,
    StudentProfile.init]

/-- C9 -- If `inscription_type` is unset or any value outside
{`premiere_inscription`, `lap`, `master`, `prep_concours`} (e.g. the declared
enum values `reinscription` or `concours`), the document list is exactly the
4 baseline items plus (when the facts are truthy) the CROUS scholarship
attestation and the fee-payment proof; in particular the JDC document never
appears, even with `has_jdc` falsy. -/
theorem c9_unhandled_kind_baseline_only (t : Option String) (b m a j : Option Bool)
    (h1 : t ≠ some "premiere_inscription") (h2 : t ≠ some "lap")
    (h3 : t ≠ some "master") (h4 : t ≠ some "prep_concours") :
    (mkProfile t b m a j).calculate_required_documents =
      [docPhoto, docPieceIdentite, docRespCivile, docCvec] ++
        (if pyTruthyBool b then [docCrous] else []) ++
        (if pyTruthyBool a then [docBulletinVersement] else []) ∧
    docJdc ∉ (mkProfile t b m a j).calculate_required_documents := by
  have hdocs : (mkProfile t b m a j).calculate_required_documents =
      [docPhoto, docPieceIdentite, docRespCivile, docCvec] ++
        (if pyTruthyBool b then [docCrous] else []) ++
        (if pyTruthyBool a then [docBulletinVersement] else []) := by
    simp only [StudentProfile.calculate_required_documents, mkProfile, StudentProfile.init]
    rw [if_neg h1, if_neg (not_or.mpr ⟨h2, h3⟩), if_neg h4]
    cases hb : pyTruthyBool b <;> cases ha : pyTruthyBool a <;> simp [hb, ha]
  refine ⟨hdocs, ?_⟩
  rw [hdocs]
  cases hb : pyTruthyBool b <;> cases ha : pyTruthyBool a <;> decide

/-- Witness for C9: `inscription_type = reinscription` (a declared enum value
the calculator does not handle) with scholarship and enrolled-elsewhere true
and `has_jdc = false` yields baseline + CROUS + payment proof, and no JDC
document. -/
theorem c9_unhandled_kind_baseline_only_witness :
    (mkProfile (some "reinscription") (some true) (some false) (some true)
        (some false)).calculate_required_documents =
      [docPhoto, docPieceIdentite, docRespCivile, docCvec] ++ [docCrous] ++
        [docBulletinVersement] ∧
    docJdc ∉ (mkProfile (some "reinscription") (some true) (some false) (some true)
        (some false)).calculate_required_documents :=
  c9_unhandled_kind_baseline_only (some "reinscription") (some true) (some false)
    (some true) (some false) (by decide) (by decide) (by decide) (by decide)

/-- C10 -- On a profile with all five facts set, `move_to_phase2` succeeds
and changes only `phase` and `current_step` (the record-update equality fixes
every other field, in particular the five facts, `required_documents`,
`form_data`, `form_completed` and `completed_steps`); and it is not guarded
against re-invocation: on the resulting phase-2 profile, whatever
`current_step` has become, it succeeds again and resets `current_step` to
`personal_info`. -/
theorem c10_move_to_phase2_frame_and_reinvocation (p : StudentProfile)
    (h : p.is_phase1_complete = true) :
    p.move_to_phase2 =
      (true, { p with phase := "remplissage_formulaire", current_step := "personal_info" }) ∧
    ∀ s : String,
      ({ p with phase := "remplissage_formulaire", current_step := s } :
          StudentProfile).move_to_phase2 =
        (true,
         { p with phase := "remplissage_formulaire", current_step := "personal_info" }) := by
  have h' : ∀ ph st, ({ p with phase := ph, current_step := st } :
      StudentProfile).is_phase1_complete = true := fun _ _ => h
  exact ⟨by simp [StudentProfile.move_to_phase2, h], fun s => by
    simp [StudentProfile.move_to_phase2, h' _ s]⟩

/-- Witness for C10: a fully collected profile advances, and advancing again
from phase 2 with a moved-on `current_step` resets it to `personal_info`. -/
theorem c10_move_to_phase2_frame_and_reinvocation_witness :
    (mkProfile (some "lap") (some false) (some true) (some false)
        (some false)).move_to_phase2 =
      (true,
       { mkProfile (some "lap") (some false) (some true) (some false) (some false) with
         phase := "remplissage_formulaire", current_step := "personal_info" }) ∧
    ({ mkProfile (some "lap") (some false) (some true) (some false) (some false) with
        phase := "remplissage_formulaire", current_step := "diplomas" } :
        StudentProfile).move_to_phase2 =
      (true,
       { mkProfile (some "lap") (some false) (some true) (some false) (some false) with
         phase := "remplissage_formulaire", current_step := "personal_info" }) := by
  have h := c10_move_to_phase2_frame_and_reinvocation
    (mkProfile (some "lap") (some false) (some true) (some false) (some false))
    (by decide)
  exact ⟨h.1, h.2 "diplomas"⟩

/-- C5 -- When the phase-1 guard holds, the advance operation
(`start_phase2` endpoint body, which ends in `move_to_phase2`) sets the phase
to `remplissage_formulaire`, seeds `current_step` to the fixed first step
`personal_info`, and backfills `form_data["type_inscription"]` from the
phase-1 `inscription_type` when that key is absent — `premiere_inscription`
maps to the first-enrollment display value `1ère Inscription`, each
re-enrollment kind (`lap`, `master`, `prep_concours`) to `Réinscription` —
and an already-present entry is never overwritten (idempotence). -/
theorem c5_start_phase2_seeds_and_backfills (p : StudentProfile)
    (h : p.is_phase1_complete = true) :
    (start_phase2_core p).phase = "remplissage_formulaire" ∧
    (start_phase2_core p).current_step = "personal_info" ∧
    (∀ v, dictLookup p.form_data "type_inscription" = some v →
      dictLookup (start_phase2_core p).form_data "type_inscription" = some v) ∧
    (dictLookup p.form_data "type_inscription" = none →
      p.inscription_type = some "premiere_inscription" →
      dictLookup (start_phase2_core p).form_data "type_inscription" =
        some "1ère Inscription") ∧
    (dictLookup p.form_data "type_inscription" = none →
      (p.inscription_type = some "lap" ∨ p.inscription_type = some "master" ∨
        p.inscription_type = some "prep_concours") →
      dictLookup (start_phase2_core p).form_data "type_inscription" =
        some "Réinscription") := by
  rw [start_phase2_core_spec p h]
  refine ⟨rfl, rfl, ?_, ?_, ?_⟩
  · intro v hv
    simp [dictContains, hv]
  · intro hnone ht
    simp only [ht, dictContains, hnone, Option.isSome_none, Bool.not_false,
      Bool.and_true, pyTruthyStr, ne_eq, if_pos rfl]
    simp only [decide_not, String.reduceEq, decide_False, Bool.not_false, if_pos rfl]
    exact dictLookup_append_fresh _ _ _ hnone
  · intro hnone ht
    have htruthy : pyTruthyStr p.inscription_type = true := by
      rcases ht with ht | ht | ht <;> simp [ht, pyTruthyStr]
    have hnotpre : ¬p.inscription_type = some "premiere_inscription" := by
      rcases ht with ht | ht | ht <;> simp [ht]
    simp only [dictContains, hnone, Option.isSome_none, Bool.not_false, htruthy,
      Bool.true_and, if_pos rfl, if_neg hnotpre, if_pos ht]
    exact dictLookup_append_fresh _ _ _ hnone

/-- Witness for C5: a complete first-enrollment profile with empty
`form_data` is advanced to phase 2, seeded at `personal_info`, with the
display entry backfilled to `1ère Inscription`. -/
theorem c5_start_phase2_seeds_and_backfills_witness :
    (start_phase2_core (mkProfile (some "premiere_inscription") (some false)
        (some false) (some false) (some false))).phase = "remplissage_formulaire" ∧
    (start_phase2_core (mkProfile (some "premiere_inscription") (some false)
        (some false) (some false) (some false))).current_step = "personal_info" ∧
    dictLookup (start_phase2_core (mkProfile (some "premiere_inscription") (some false)
        (some false) (some false) (some false))).form_data "type_inscription" =
      some "1ère Inscription" := by
  have h := c5_start_phase2_seeds_and_backfills
    (mkProfile (some "premiere_inscription") (some false) (some false) (some false)
      (some false)) (by decide)
  exact ⟨h.1, h.2.1, h.2.2.2.1 rfl rfl⟩

/-- C4 (counterexample) -- On the empty form-data mapping,
`get_missing_sections` does NOT report every section other than the optional
ones 7, 14, 15, 22: section 9, although marked required, has only optional
fields and is therefore never reported, so the claimed 20-section list is not
returned. -/
theorem c4_counterexample_section9_not_reported :
    (get_missing_sections []).map (fun x => x.1.number) ≠
      [1, 2, 3, 4, 5, 6, 8, 9, 10, 11, 12, 13, 16, 17, 18, 19, 20, 21, 23, 24] := by
  decide

/-- C4 (amended) -- `get_missing_sections` on the empty mapping returns
exactly the required catalog sections that have at least one required field:
all sections except the optional 7, 14, 15, 22 and except section 9 (required
but with only optional fields), in ascending section-number order, each
paired with its required fields as the missing fields. -/
theorem c4_missing_sections_of_empty :
    (get_missing_sections []).map (fun x => (x.1.number, x.2)) =
      [(1, ["type_inscription"]),
       (2, ["nom_naissance", "prenom_1", "numero_ines"]),
       (3, ["date_naissance", "sexe"]),
       (4, ["ville_naissance", "departement_naissance", "pays_naissance"]),
       (5, ["nationalite"]),
       (6, ["situation_familiale"]),
       (8, ["situation_militaire"]),
       (10, ["bac_annee", "bac_serie", "bac_type_etablissement",
             "bac_nom_etablissement", "bac_ville", "bac_departement"]),
       (11, ["adresse_complete", "code_postal", "ville", "type_hebergement"]),
       (12, ["csp_etudiant_code", "csp_etudiant_activite", "csp_etudiant_quotite"]),
       (13, ["csp_parent_1", "csp_parent_2"]),
       (16, ["echanges_internationaux"]),
       (17, ["dernier_etablissement_annee"]),
       (18, ["situation_2025_2026_type"]),
       (19, ["dernier_diplome_code", "dernier_diplome_libelle",
             "dernier_diplome_annee", "dernier_diplome_etablissement"]),
       (20, ["inscrit_autre_etablissement"]),
       (21, ["diplome_postule_intitule", "diplome_postule_specialite",
             "diplome_postule_finalite", "diplome_postule_parcours",
             "diplome_postule_niveau", "diplome_postule_nb_inscriptions_cycle",
             "diplome_postule_nb_inscriptions_diplome",
             "diplome_postule_nb_inscriptions_niveau",
             "diplome_postule_enseignement_distance"]),
       (23, ["pupilles_nation", "assurance_responsabilite_civile", "etudiant_mineur"]),
       (24, ["certification_exactitude", "certification_charte", "signature_date",
             "signature_lieu"])] := by
  rfl

/-- C6 (counterexample) -- A hint that mentions a digit count but contains no
integer does NOT classify as plain `numeric`: `detect_field_type` falls
through the count rule and here reaches the default, returning `text`. -/
theorem c6_counterexample_no_integer_not_numeric :
    detect_field_type "text" "chiffres" false = "text" ∧
    detect_field_type "text" "chiffres" false ≠ "numeric" := by
  constructor
  · rfl
  · decide

/-- C6 (amended) -- When no earlier rule fires (the type is neither `choice`
nor `checkbox`, no options are declared, and the hint matches none of the
choice/date/year keywords) and the hint mentions a character or digit count:
if the first integer of the hint exists and is non-zero the classifier
returns `numeric_N` with `N` that first integer; if the hint contains no
integer the classifier falls through to the later rules and returns one of
`code_annexe`, `address`, `text_uppercase`, `text` — never plain
`numeric`. -/
theorem c6_count_hint_classification (field_type format_info : String)
    (options_present : Bool)
    (h1 : (field_type == "choice") = false)
    (h2 : containsSubstr (pyLower format_info) "choisir" = false)
    (h3 : options_present = false)
    (h4 : (field_type == "checkbox") = false)
    (h5 : containsSubstr (pyLower format_info) "jj/mm/aaaa" = false)
    (h6 : containsSubstr (pyLower format_info) "date" = false)
    (h7 : containsSubstr (pyLower format_info) "année" = false)
    (h8 : containsSubstr (pyLower format_info) "annee" = false)
    (h9 : (containsSubstr (pyLower format_info) "caractères" ||
           containsSubstr (pyLower format_info) "chiffres") = true) :
    (∀ n, extract_number (pyLower format_info) = some n → n ≠ 0 →
      detect_field_type field_type format_info options_present =
        "numeric_" ++ toString n) ∧
    (extract_number (pyLower format_info) = none →
      detect_field_type field_type format_info options_present ≠ "numeric" ∧
      detect_field_type field_type format_info options_present ∈
        ["code_annexe", "address", "text_uppercase", "text"]) := by
  constructor
  · intro n hn hn0
    simp [detect_field_type, h1, h2, h3, h4, h5, h6, h7, h8, h9, hn, pyTruthyNat, hn0]
  · intro hn
    have hfall : detect_field_type field_type format_info options_present =
        (if containsSubstr (pyLower format_info) "code" &&
            containsSubstr (pyLower format_info) "annexe" then "code_annexe"
         else if containsSubstr (pyLower format_info) "adresse" &&
            containsSubstr (pyLower format_info) "complète" then "address"
         else if containsSubstr (pyLower format_info) "majuscules" ||
            containsSubstr (pyLower format_info) "uppercase" then "text_uppercase"
         else "text") := by
      simp [detect_field_type, h1, h2, h3, h4, h5, h6, h7, h8, h9, hn, pyTruthyNat]
    rw [hfall]
    constructor
    · split_ifs <;> decide
    · split_ifs <;> decide

/-- Witness for C6: the catalog hint `8 caractères` (with default field type
`text` and no options) classifies as the fixed-length type with the first
integer of the hint, `numeric_8`. -/
theorem c6_count_hint_classification_witness :
    detect_field_type "text" "8 caractères" false = "numeric_" ++ toString 8 :=
  (c6_count_hint_classification "text" "8 caractères" false rfl (by decide) rfl rfl
    (by decide) (by decide) (by decide) (by decide) (by decide)).1 8 (by decide)
    (by decide)

/-- C8 -- If no password hash is stored, `verify_password` accepts every
supplied password; if a (necessarily non-empty, being a SHA-256 hex digest)
hash is stored, it accepts exactly the passwords hashing to it.  Python
truthiness makes an empty stored string behave like an absent hash, which the
program never produces. -/
theorem c8_verify_password_spec (hash_password : String → String)
    (a : UserAccount) (password : String) :
    (a.password_hash = none →
      a.verify_password hash_password password = true) ∧
    (∀ h, a.password_hash = some h → h ≠ "" →
      (a.verify_password hash_password password = true ↔
        hash_password password = h)) := by
  constructor
  · intro hn
    simp [UserAccount.verify_password, hn]
  · intro h hh hne
    simp [UserAccount.verify_password, hh, hne]

/-- Witness for C8: with no stored hash any password is accepted; with a
stored hash, acceptance is equivalent to the supplied password hashing to
it. -/
theorem c8_verify_password_spec_witness :
    UserAccount.verify_password (fun s => s ++ "0") ⟨"a@b.c", none⟩ "secret" = true ∧
    (UserAccount.verify_password (fun s => s ++ "0") ⟨"a@b.c", some "secret0"⟩
        "secret" = true ↔ (fun s => s ++ "0") "secret" = "secret0") :=
  ⟨(c8_verify_password_spec (fun s => s ++ "0") ⟨"a@b.c", none⟩ "secret").1 rfl,
   (c8_verify_password_spec (fun s => s ++ "0") ⟨"a@b.c", some "secret0"⟩
      "secret").2 "secret0" rfl (by decide)⟩

end Inscription
